import Mathlib

/-!
Verification of the backend-pool reconciler specification against the
cloud-provider-azure sources.

Part 1 embeds `pkg/provider/azure_loadbalancer_healthprobe.go`
(`buildHealthProbeRulesForPort`, `getHealthProbeConfigProbeIntervalAndNumOfProbe`
and their helpers).  Annotation keys, default constants and the small
annotation-lookup helpers of the external `consts` package are modelled, since
that package is an external collaborator (spec section 1 and 6); everything
else follows the Go source line by line.  Go `int32` arithmetic is modelled as
`Int` with an explicit two's-complement wrap where the source multiplies.

Part 2 models the asynchronous batched backend-pool updater
(`loadBalancerBackendPoolUpdater`).  Its implementation file is not part of the
given sources (only its tests are), so the definitions are modelled from the
specification's words (sections 3, 4, 5 and 7) and are marked accordingly.
-/

/-- One decimal digit accumulator pass, used to model Go `strconv.ParseInt`
with base 10: consumes the character list, failing on any non-digit. -/
def decDigitsAux : List Char → Nat → Option Nat
  | [], acc => some acc
  | c :: cs, acc =>
    if c.isDigit then decDigitsAux cs (10 * acc + (c.toNat - 48)) else none

/-- Model of Go `strconv.ParseInt(s, 10, 64)` without the bit-size bound:
an optional sign followed by at least one decimal digit. -/
def parseDecInt? (s : String) : Option Int :=
  match s.data with
  | [] => none
  | '+' :: cs =>
    if cs.isEmpty then none else (decDigitsAux cs 0).map (fun n => (n : Int))
  | '-' :: cs =>
    if cs.isEmpty then none else (decDigitsAux cs 0).map (fun n => -(n : Int))
  | cs => (decDigitsAux cs 0).map (fun n => (n : Int))

/-- Model of Go `strconv.ParseInt(s, 10, 32)`: a range error is a parse
failure, as in Go where `ErrRange` is a non-nil error. -/
def parseInt32? (s : String) : Option Int :=
  match parseDecInt? s with
  | none => none
  | some v => if v < -2147483648 ∨ 2147483647 < v then none else some v

/-- Model of Go `strconv.Atoi` (64-bit result; `ErrRange` is a failure). -/
def parseInt64? (s : String) : Option Int :=
  match parseDecInt? s with
  | none => none
  | some v =>
    if v < -9223372036854775808 ∨ 9223372036854775807 < v then none else some v

/-- Model of Go `strings.EqualFold` restricted to ASCII case folding. -/
def asciiEqFold (a b : String) : Bool := a.toLower == b.toLower

/-- Two's-complement reduction to a signed 32-bit value: the value a Go
`int32` multiplication or addition actually produces. -/
def wrap32 (x : Int) : Int := (x + 2147483648) % 4294967296 - 2147483648

/-- Protocol of a Kubernetes service port (`v1.Protocol`). -/
inductive K8sProtocol
  | tcp
  | udp
  | sctp
deriving DecidableEq

/-- A Kubernetes service port (`v1.ServicePort`): the fields read by
`buildHealthProbeRulesForPort`. -/
structure ServicePort where
  name : String
  port : Int
  nodePort : Int
  protocol : K8sProtocol
  appProtocol : Option String
deriving DecidableEq

/-- A Kubernetes service (`v1.Service`): its annotations and its spec ports,
the only fields the health-probe code reads. -/
structure Service where
  anns : List (String × String)
  ports : List ServicePort
deriving DecidableEq

/-- Azure probe protocol (`network.ProbeProtocol`). -/
inductive ProbeProtocol
  | tcp
  | http
  | https
deriving DecidableEq

/-- The probe properties assembled by `buildHealthProbeRulesForPort`
(`network.ProbePropertiesFormat`). -/
structure ProbeProperties where
  protocol : ProbeProtocol
  port : Int
  requestPath : Option String
  intervalInSeconds : Int
  probeThreshold : Int
deriving DecidableEq

/-- A load-balancer probe (`network.Probe`). -/
structure Probe where
  name : String
  properties : ProbeProperties
deriving DecidableEq

/-- Modelled from the spec: default probe request port
(`consts.HealthProbeDefaultRequestPort`) of the external consts package. -/
def healthProbeDefaultRequestPort : Int := 80

/-- Modelled from the spec: default number of probes
(`consts.HealthProbeDefaultNumOfProbe`) of the external consts package. -/
def healthProbeDefaultNumOfProbe : Int := 2

/-- Modelled from the spec: default probe interval in seconds
(`consts.HealthProbeDefaultProbeInterval`) of the external consts package. -/
def healthProbeDefaultProbeInterval : Int := 5

/-- Modelled from the spec: default probe request path
(`consts.HealthProbeDefaultRequestPath`) of the external consts package. -/
def healthProbeDefaultRequestPath : String := "/healthz"

/-- Modelled from the spec: the `consts.HealthProbeParamsProtocol` key part. -/
def healthProbeParamsProtocol : String := "protocol"

/-- Modelled from the spec: the `consts.HealthProbeParamsPort` key part. -/
def healthProbeParamsPort : String := "port"

/-- Modelled from the spec: the `consts.HealthProbeParamsRequestPath` key
part. -/
def healthProbeParamsRequestPath : String := "request-path"

/-- Modelled from the spec: the `consts.HealthProbeParamsNumOfProbe` key
part. -/
def healthProbeParamsNumOfProbe : String := "num-of-probe"

/-- Modelled from the spec: the `consts.HealthProbeParamsProbeInterval` key
part. -/
def healthProbeParamsProbeInterval : String := "probe-interval"

/-- Modelled from the spec: `consts.BuildHealthProbeAnnotationKeyForPort`,
which builds the per-port health-probe key; only injectivity in the port and
parameter matters to the claims, not the exact text. -/
def buildHealthProbeAnnKeyForPort (port : Int) (param : String) : String :=
  "service.beta.kubernetes.io/port_" ++ toString port ++ "_health-probe_" ++ param

/-- Modelled from the spec: the global health-probe protocol key
(`consts.ServiceAnnotationLoadBalancerHealthProbeProtocol`). -/
def serviceAnnLBHealthProbeProtocol : String :=
  "service.beta.kubernetes.io/azure-load-balancer-health-probe-protocol"

/-- Modelled from the spec: the global health-probe request-path key
(`consts.ServiceAnnotationLoadBalancerHealthProbeRequestPath`). -/
def serviceAnnLBHealthProbeRequestPath : String :=
  "service.beta.kubernetes.io/azure-load-balancer-health-probe-request-path"

/-- Modelled from the spec: the global number-of-probes key
(`consts.ServiceAnnotationLoadBalancerHealthProbeNumOfProbe`). -/
def serviceAnnLBHealthProbeNumOfProbe : String :=
  "service.beta.kubernetes.io/azure-load-balancer-health-probe-num-of-probe"

/-- Modelled from the spec: the global probe-interval key
(`consts.ServiceAnnotationLoadBalancerHealthProbeInterval`). -/
def serviceAnnLBHealthProbeInterval : String :=
  "service.beta.kubernetes.io/azure-load-balancer-health-probe-interval"

/-- Lookup of an annotation value by key in a service's annotation map. -/
def lookupAnn (anns : List (String × String)) (key : String) : Option String :=
  (anns.find? (fun kv => kv.1 == key)).map (fun kv => kv.2)

/-- Modelled from the spec: `consts.GetHealthProbeConfigOfPortFromK8sSvcAnnotation`
of the external consts package — fetch the per-port health-probe parameter as a
string; absent yields `none`, a present value is run through the optional
validator. -/
def getHealthProbeConfigOfPort (anns : List (String × String)) (port : Int)
    (param : String) (validator : Option (String → Option String)) :
    Except String (Option String) :=
  match lookupAnn anns (buildHealthProbeAnnKeyForPort port param) with
  | none => Except.ok none
  | some s =>
    match validator with
    | none => Except.ok (some s)
    | some vf =>
      match vf s with
      | some msg => Except.error msg
      | none => Except.ok (some s)

/-- Modelled from the spec: `consts.GetInt32HealthProbeConfigOfPortFromK8sSvcAnnotation`
— fetch the per-port health-probe parameter, parse it as an int32 and run the
validator; absent yields `none`. -/
def getInt32HealthProbeConfigOfPort (anns : List (String × String)) (port : Int)
    (param : String) (validator : Int → Option String) :
    Except String (Option Int) :=
  match lookupAnn anns (buildHealthProbeAnnKeyForPort port param) with
  | none => Except.ok none
  | some s =>
    match parseInt32? s with
    | none => Except.error ("failed to parse value of " ++ param)
    | some v =>
      match validator v with
      | some msg => Except.error msg
      | none => Except.ok (some v)

/-- Modelled from the spec: `consts.Getint32ValueFromK8sSvcAnnotation` — fetch
a global annotation, parse it as an int32 and run the validator. -/
def getInt32ValueFromSvcAnn (anns : List (String × String)) (key : String)
    (validator : Int → Option String) : Except String (Option Int) :=
  match lookupAnn anns key with
  | none => Except.ok none
  | some s =>
    match parseInt32? s with
    | none => Except.error ("failed to parse value of " ++ key)
    | some v =>
      match validator v with
      | some msg => Except.error msg
      | none => Except.ok (some v)

/-- Modelled from the spec: `consts.GetAttributeValueInSvcAnnotation` — a
plain lookup of a global annotation value. -/
def getAttributeValueInSvcAnn (anns : List (String × String)) (key : String) :
    Option String :=
  lookupAnn anns key

/-- The `numOfProbeValidator` closure of the source: minimum number of
unhealthy responses is 2. -/
def numOfProbeValidator (v : Int) : Option String :=
  if v < 2 then some "the minimum value of num-of-probe is 2" else none

/-- The `probeIntervalValidator` closure of the source: minimum probe interval
in seconds is 5. -/
def probeIntervalValidator (v : Int) : Option String :=
  if v < 5 then some "the minimum value of probe-interval is 5" else none

/-- Embeds `getHealthProbeConfigNumOfProbe`: per-port annotation, then global
annotation, then the default. -/
def getHealthProbeConfigNumOfProbe (svc : Service) (port : Int) :
    Except String Int :=
  match getInt32HealthProbeConfigOfPort svc.anns port healthProbeParamsNumOfProbe
      numOfProbeValidator with
  | Except.error e => Except.error e
  | Except.ok (some v) => Except.ok v
  | Except.ok none =>
    match getInt32ValueFromSvcAnn svc.anns serviceAnnLBHealthProbeNumOfProbe
        numOfProbeValidator with
    | Except.error e => Except.error e
    | Except.ok (some v) => Except.ok v
    | Except.ok none => Except.ok healthProbeDefaultNumOfProbe

/-- Embeds `getHealthProbeConfigProbeInterval`: per-port annotation, then
global annotation, then the default. -/
def getHealthProbeConfigProbeInterval (svc : Service) (port : Int) :
    Except String Int :=
  match getInt32HealthProbeConfigOfPort svc.anns port healthProbeParamsProbeInterval
      probeIntervalValidator with
  | Except.error e => Except.error e
  | Except.ok (some v) => Except.ok v
  | Except.ok none =>
    match getInt32ValueFromSvcAnn svc.anns serviceAnnLBHealthProbeInterval
        probeIntervalValidator with
    | Except.error e => Except.error e
    | Except.ok (some v) => Except.ok v
    | Except.ok none => Except.ok healthProbeDefaultProbeInterval

/-- Embeds `getHealthProbeConfigProbeIntervalAndNumOfProbe`: resolve both
values and reject when the int32 product of interval and number of probes is
at least 120. -/
def getHealthProbeConfigProbeIntervalAndNumOfProbe (svc : Service) (port : Int) :
    Except String (Int × Int) :=
  match getHealthProbeConfigNumOfProbe svc port with
  | Except.error e => Except.error e
  | Except.ok numberOfProbes =>
    match getHealthProbeConfigProbeInterval svc port with
    | Except.error e => Except.error e
    | Except.ok probeInterval =>
      if 120 ≤ wrap32 (probeInterval * numberOfProbes) then
        Except.error "total probe should be less than 120, please adjust interval and number of probe accordingly"
      else Except.ok (probeInterval, numberOfProbes)

/-- Embeds the protocol-selection block of `buildHealthProbeRulesForPort`
(source lines 48 to 97): per-port annotation, then `AppProtocol`, then the
global annotation, then the HTTP default; the switch returns the probe
protocol and, for the TCP cases, the node port. -/
def selectProbeProtocol (useStandardLB : Bool) (svc : Service)
    (port : ServicePort) : Except String (ProbeProtocol × Option Int) :=
  match getHealthProbeConfigOfPort svc.anns port.port healthProbeParamsProtocol none with
  | Except.error e => Except.error e
  | Except.ok perPort =>
    let p1 := match perPort with
      | some p => some p
      | none => port.appProtocol
    let p2 := match p1 with
      | some p => some p
      | none => getAttributeValueInSvcAnn svc.anns serviceAnnLBHealthProbeProtocol
    let protocol := (p2.getD "Http").trim
    Except.ok
      (if asciiEqFold protocol "Tcp" then (ProbeProtocol.tcp, some port.nodePort)
       else if asciiEqFold protocol "Https" then
         (if useStandardLB then (ProbeProtocol.https, none)
          else (ProbeProtocol.tcp, some port.nodePort))
       else if asciiEqFold protocol "Http" then (ProbeProtocol.http, none)
       else (ProbeProtocol.tcp, some port.nodePort))

/-- The probe-port annotation validator closure of the source (lines 104 to
124): a value is acceptable when it names a port of the service, or is an
integer in the range 0 to 65535. -/
def probePortValidator (svc : Service) (s : String) : Option String :=
  if svc.ports.any (fun item => asciiEqFold item.name s) then none
  else
    match parseInt64? s with
    | none => some ("port " ++ s ++ " not found in service")
    | some p => if p < 0 ∨ 65535 < p then some "port is out of range" else none

/-- Embeds the probe-port override block of `buildHealthProbeRulesForPort`
(source lines 99 to 157): start from the switch result or the default request
port; a named annotation value takes the matching port's node port (last match
wins, keeping the prior value when nothing matches), an integer value takes
the node port of the service port with that port number (first match) or the
integer itself. -/
def resolveProbePort (svc : Service) (port : ServicePort)
    (portOpt : Option Int) : Except String Int :=
  let base := portOpt.getD healthProbeDefaultRequestPort
  match getHealthProbeConfigOfPort svc.anns port.port healthProbeParamsPort
      (some (probePortValidator svc)) with
  | Except.error e => Except.error e
  | Except.ok none => Except.ok base
  | Except.ok (some s) =>
    match parseInt32? s with
    | none =>
      Except.ok ((svc.ports.foldl
        (fun acc item => if asciiEqFold item.name s then some item.nodePort else acc)
        none).getD base)
    | some p =>
      match svc.ports.find? (fun item => item.port == p) with
      | some item => Except.ok item.nodePort
      | none => Except.ok p

/-- Embeds the request-path block of `buildHealthProbeRulesForPort` (source
lines 159 to 175): only HTTP and HTTPS probes carry a request path, taken from
the per-port annotation, else the global annotation, else the default. -/
def resolveRequestPath (svc : Service) (portNum : Int) (proto : ProbeProtocol) :
    Except String (Option String) :=
  if proto == ProbeProtocol.https || proto == ProbeProtocol.http then
    match getHealthProbeConfigOfPort svc.anns portNum healthProbeParamsRequestPath none with
    | Except.error e => Except.error e
    | Except.ok p =>
      let p2 := match p with
        | some v => some v
        | none => getAttributeValueInSvcAnn svc.anns serviceAnnLBHealthProbeRequestPath
      Except.ok (some (p2.getD healthProbeDefaultRequestPath))
  else Except.ok none

/-- Embeds `buildHealthProbeRulesForPort`: UDP and SCTP ports get no probe and
no error; otherwise protocol, probe port, request path, number of probes and
interval are resolved in the source's order (the number and interval blocks of
lines 176 to 225 coincide with the standalone getters), and the probe is
rejected when the int32 product of interval and number of probes reaches
120. -/
def buildHealthProbeRulesForPort (useStandardLB : Bool) (svc : Service)
    (port : ServicePort) (lbrule : String) : Except String (Option Probe) :=
  if port.protocol == K8sProtocol.udp || port.protocol == K8sProtocol.sctp then
    Except.ok none
  else
    match selectProbeProtocol useStandardLB svc port with
    | Except.error e => Except.error e
    | Except.ok (proto, portOpt) =>
      match resolveProbePort svc port portOpt with
      | Except.error e => Except.error e
      | Except.ok probePortVal =>
        match resolveRequestPath svc port.port proto with
        | Except.error e => Except.error e
        | Except.ok reqPath =>
          match getHealthProbeConfigNumOfProbe svc port.port with
          | Except.error e => Except.error e
          | Except.ok numberOfProbes =>
            match getHealthProbeConfigProbeInterval svc port.port with
            | Except.error e => Except.error e
            | Except.ok probeInterval =>
              if 120 ≤ wrap32 (probeInterval * numberOfProbes) then
                Except.error "total probe should be less than 120, please adjust interval and number of probe accordingly"
              else
                Except.ok (some
                  ⟨lbrule, ⟨proto, probePortVal, reqPath, probeInterval, numberOfProbes⟩⟩)

/-- The concrete service used to exercise the int32 overflow of the
total-probe check: a per-port probe interval of 1073741824 seconds and 2
probes. -/
def claim10Svc : Service :=
  ⟨[(buildHealthProbeAnnKeyForPort 80 healthProbeParamsProbeInterval, "1073741824"),
    (buildHealthProbeAnnKeyForPort 80 healthProbeParamsNumOfProbe, "2")], []⟩

/-- Modelled from the spec: the kind of a queued mutation, `AddIPs` or
`RemoveIPs` (spec section 3, Operation; the updater implementation is not
among the given sources, only its tests are). -/
inductive OpKind
  | addIPs
  | removeIPs
deriving DecidableEq

/-- Modelled from the spec: an Operation — originating service identity,
target load balancer, target pool, kind and IP-address set (spec section 3).
The completion signal is represented by the per-group result produced by
`runGroup`, which resolves every contributing Operation exactly once. -/
structure Operation where
  serviceName : String
  lbName : String
  poolName : String
  kind : OpKind
  ips : List String
deriving DecidableEq

/-- Modelled from the spec: the `getAddIPsToBackendPoolOperation` constructor
used by the tests. -/
def getAddIPsToBackendPoolOperation (svc lb pool : String) (ips : List String) :
    Operation :=
  ⟨svc, lb, pool, OpKind.addIPs, ips⟩

/-- Modelled from the spec: the `getRemoveIPsFromBackendPoolOperation`
constructor used by the tests. -/
def getRemoveIPsFromBackendPoolOperation (svc lb pool : String)
    (ips : List String) : Operation :=
  ⟨svc, lb, pool, OpKind.removeIPs, ips⟩

/-- Modelled from the spec: insert one address into the pool's address-entry
list, a no-op when it is already present (spec section 4.2, merge). -/
def addIPEntry (l : List String) (ip : String) : List String :=
  if l.contains ip then l else l ++ [ip]

/-- Modelled from the spec: apply one Operation to an address-entry list —
`AddIPs` inserts the addresses not already present, `RemoveIPs` deletes the
entries matching the given addresses (spec section 4.2, merge). -/
def applyOperation (l : List String) (op : Operation) : List String :=
  match op.kind with
  | OpKind.addIPs => op.ips.foldl addIPEntry l
  | OpKind.removeIPs => l.filter (fun a => !(op.ips.contains a))

/-- Modelled from the spec: `merge(snapshot, operations)` applies every queued
Operation to the fetched snapshot in submission order (spec section 4.2). -/
def mergePool (snapshot : List String) (ops : List Operation) : List String :=
  ops.foldl applyOperation snapshot

/-- Modelled from the spec: the error shape of the cloud network API — a
retriable flag and a not-found condition (spec sections 6 and 7). -/
structure RetryError where
  retriable : Bool
  notFound : Bool
deriving DecidableEq

/-- Modelled from the spec: the terminal resolution of an Operation's
completion signal, success or a typed error (spec section 3). -/
inductive OpResult
  | success
  | failure (e : RetryError)
deriving DecidableEq

/-- Modelled from the spec: the remote collaborator for one (load balancer,
pool) pair — the result of the k-th `GetBackendPool` call and of the k-th
`CreateOrUpdateBackendPool` call in a drain cycle (spec section 6). -/
structure PoolAPI where
  fetch : Nat → Except RetryError (List String)
  put : Nat → Option RetryError

/-- Modelled from the spec: the observable outcome of one (load balancer,
pool) group in one drain cycle — how many fetches were issued, the desired
lists handed to each update call, and the resolution every contributing
Operation receives. -/
structure GroupTrace where
  fetches : Nat
  updates : List (List String)
  result : OpResult
deriving DecidableEq

/-- Modelled from the spec: the fetch-merge-apply sequence with its retry
policy for one (load balancer, pool) group (spec sections 4.2, 4.3 and 7):
a not-found fetch resolves the group successfully with no update call; a
retriable failure of the fetch or of the apply triggers exactly one
re-fetch-and-reapply cycle, after which any failure is terminal; a
non-retriable failure is terminal immediately. -/
def runGroup (api : PoolAPI) (ops : List Operation) : GroupTrace :=
  match api.fetch 0 with
  | Except.error e =>
    if e.notFound then ⟨1, [], OpResult.success⟩
    else if e.retriable then
      match api.fetch 1 with
      | Except.error e2 =>
        if e2.notFound then ⟨2, [], OpResult.success⟩
        else ⟨2, [], OpResult.failure e2⟩
      | Except.ok snap =>
        let desired := mergePool snap ops
        match api.put 0 with
        | none => ⟨2, [desired], OpResult.success⟩
        | some pe => ⟨2, [desired], OpResult.failure pe⟩
    else ⟨1, [], OpResult.failure e⟩
  | Except.ok snap =>
    let desired := mergePool snap ops
    match api.put 0 with
    | none => ⟨1, [desired], OpResult.success⟩
    | some pe =>
      if pe.retriable then
        match api.fetch 1 with
        | Except.error e2 =>
          if e2.notFound then ⟨2, [desired], OpResult.success⟩
          else ⟨2, [desired], OpResult.failure e2⟩
        | Except.ok snap2 =>
          let desired2 := mergePool snap2 ops
          match api.put 1 with
          | none => ⟨2, [desired, desired2], OpResult.success⟩
          | some pe2 => ⟨2, [desired, desired2], OpResult.failure pe2⟩
      else ⟨1, [desired], OpResult.failure pe⟩

/-- Modelled from the spec: a Service Routing Entry — the load-balancer name
assigned to a locally routed service (spec section 3; the `serviceInfo` of the
tests). -/
structure ServiceInfo where
  lbName : String
deriving DecidableEq

/-- Modelled from the spec: the grouping key of an Operation — its (load
balancer, pool) pair (spec section 4.1). -/
def opKey (op : Operation) : String × String := (op.lbName, op.poolName)

/-- Modelled from the spec: whether an Operation's service is recorded as
locally routed and assigned to the Operation's load balancer; the drain loop
skips Operations that are not (tests `not local service` and `not on this load
balancer`, and spec section 4.4's routing-table consultation). -/
def isLocallyRoutedOn (routing : String → Option ServiceInfo) (op : Operation) :
    Bool :=
  match routing op.serviceName with
  | some info => info.lbName == op.lbName
  | none => false

/-- Modelled from the spec: the Operations of a drained batch whose service is
locally routed on their target load balancer. -/
def validOps (routing : String → Option ServiceInfo) (batch : List Operation) :
    List Operation :=
  batch.filter (isLocallyRoutedOn routing)

/-- Modelled from the spec: the distinct (load balancer, pool) keys of a
batch, in order of first appearance (spec section 4.1's grouping). -/
def firstKeys : List Operation → List (String × String)
  | [] => []
  | op :: rest => opKey op :: (firstKeys rest).filter (fun k => !(k == opKey op))

/-- Modelled from the spec: the Operations of one (load balancer, pool) group,
in submission order (spec section 4.1). -/
def groupOps (routing : String → Option ServiceInfo) (batch : List Operation)
    (k : String × String) : List Operation :=
  (validOps routing batch).filter (fun op => opKey op == k)

/-- Modelled from the spec: one drain cycle over a drained batch — group the
batch by (load balancer, pool) and run each group's own fetch-merge-apply
sequence against that group's remote endpoint (spec sections 4.1 to 4.3). -/
def drainTick (routing : String → Option ServiceInfo)
    (api : String × String → PoolAPI) (batch : List Operation) :
    List ((String × String) × GroupTrace) :=
  (firstKeys (validOps routing batch)).map
    (fun k => (k, runGroup (api k) (groupOps routing batch k)))

/-- Modelled from the spec: the events the Operation Queue reacts to —
`enqueue`, `withdraw` (the `removeOperation` of the tests) and the drain-timer
`tick` (spec section 4.1). -/
inductive UpdaterEvent
  | enqueue (op : Operation)
  | withdraw (svc : String)
  | tick

/-- Modelled from the spec: the queue state — the pending Operations, and the
batches already swept by past ticks (each processed batch is handed to
`drainTick`, the only place where remote calls are made and completion signals
resolved). -/
structure UpdaterState where
  pending : List Operation
  processed : List (List Operation)
deriving DecidableEq

/-- Modelled from the spec: `withdraw(serviceName)` removes every pending
Operation whose originating service matches (spec section 4.1). -/
def removeOperation (pending : List Operation) (svc : String) : List Operation :=
  pending.filter (fun op => !(op.serviceName == svc))

/-- Modelled from the spec: one step of the Operation Queue — enqueue appends,
withdraw filters the pending queue, a tick atomically swaps the pending queue
out and records it as the drained batch (spec sections 4.1 and 5). -/
def stepUpdater (s : UpdaterState) (e : UpdaterEvent) : UpdaterState :=
  match e with
  | UpdaterEvent.enqueue op => ⟨s.pending ++ [op], s.processed⟩
  | UpdaterEvent.withdraw svc => ⟨removeOperation s.pending svc, s.processed⟩
  | UpdaterEvent.tick => ⟨[], s.processed ++ [s.pending]⟩

/-- Modelled from the spec: the queue state reached from the empty initial
state by a sequence of events. -/
def runUpdater (events : List UpdaterEvent) : UpdaterState :=
  events.foldl stepUpdater ⟨[], []⟩

/-- Modelled from the spec: a membership-change event — an optional service
identity and the old and new node sets (spec sections 4.4 and 6). -/
structure MembershipEvent where
  serviceId : Option String
  oldNodes : List String
  newNodes : List String

/-- Modelled from the spec: resolve a node set to the union of the nodes'
known private IP addresses; a node with no known address contributes nothing
(spec section 4.4). -/
def resolveNodeIPs (nodeIPs : String → List String) (nodes : List String) :
    List String :=
  nodes.foldl (fun acc n => (nodeIPs n).foldl addIPEntry acc) []

/-- Modelled from the spec: the pool name derived deterministically from the
service identity (spec section 4.4; `test/svc1` becomes `test-svc1` in the
tests). -/
def servicePoolName (svcId : String) : String := svcId.replace "/" "-"

/-- Modelled from the spec: the Endpoint Diff Engine — ignore events without a
service identity or for services not in the routing table; otherwise resolve
both node sets to addresses and emit an `AddIPs` Operation for the added
addresses and a `RemoveIPs` Operation for the removed ones, when non-empty
(spec section 4.4). -/
def diffEngineOps (routing : String → Option ServiceInfo)
    (nodeIPs : String → List String) (ev : MembershipEvent) : List Operation :=
  match ev.serviceId with
  | none => []
  | some svc =>
    match routing svc with
    | none => []
    | some info =>
      let oldA := resolveNodeIPs nodeIPs ev.oldNodes
      let newA := resolveNodeIPs nodeIPs ev.newNodes
      let added := newA.filter (fun a => !(oldA.contains a))
      let removed := oldA.filter (fun a => !(newA.contains a))
      let pool := servicePoolName svc
      (if added.isEmpty then [] else [⟨svc, info.lbName, pool, OpKind.addIPs, added⟩]) ++
      (if removed.isEmpty then []
       else [⟨svc, info.lbName, pool, OpKind.removeIPs, removed⟩])

/-- Folding `addIPEntry` over a list of addresses only appends entries, and
every appended entry is one of the added addresses. -/
theorem foldl_addIPEntry_extends (ips : List String) :
    ∀ l, ∃ extra, List.foldl addIPEntry l ips = l ++ extra ∧ ∀ x ∈ extra, x ∈ ips := by
  induction ips with
  | nil => intro l; exact ⟨[], by simp, by simp⟩
  | cons ip ips ih =>
    intro l
    obtain ⟨extra, heq, hmem⟩ := ih (addIPEntry l ip)
    by_cases hc : l.contains ip = true
    · have hm : ip ∈ l := by simpa using hc
      refine ⟨extra, ?_, ?_⟩
      · simpa [addIPEntry, hm] using heq
      · intro x hx; exact List.mem_cons_of_mem _ (hmem x hx)
    · have hm : ip ∉ l := by simpa using hc
      refine ⟨ip :: extra, ?_, ?_⟩
      · simp only [List.foldl_cons]
        rw [heq]
        simp [addIPEntry, hm]
      · intro x hx
        rcases List.mem_cons.mp hx with h | h
        · exact h ▸ List.mem_cons_self _ _
        · exact List.mem_cons_of_mem _ (hmem x h)

/-- Merging an `AddIPs` Operation followed by a `RemoveIPs` Operation of the
same addresses leaves a snapshot unchanged when the snapshot contains none of
those addresses. -/
theorem merge_add_remove_of_disjoint (svcName lb pool : String)
    (ips snap : List String) (hdisj : ∀ a ∈ ips, a ∉ snap) :
    mergePool snap
      [getAddIPsToBackendPoolOperation svcName lb pool ips,
       getRemoveIPsFromBackendPoolOperation svcName lb pool ips] = snap := by
  show (List.foldl addIPEntry snap ips).filter (fun a => !(ips.contains a)) = snap
  obtain ⟨extra, heq, hmem⟩ := foldl_addIPEntry_extends ips snap
  rw [heq, List.filter_append]
  have h1 : snap.filter (fun a => !(ips.contains a)) = snap := by
    rw [List.filter_eq_self]
    intro a ha
    have hni : a ∉ ips := fun hin => hdisj a hin ha
    simpa using hni
  have h2 : extra.filter (fun a => !(ips.contains a)) = [] := by
    rw [List.filter_eq_nil_iff]
    intro a ha
    have := hmem a ha
    simp [this]
  rw [h1, h2, List.append_nil]

/-- C1 counterexample: with a fetched list that already holds 10.0.0.1, an
AddIPs of that address followed by a RemoveIPs of the same address hands the
update call an empty desired list, not the fetched one — the claim's
`AddIPs then RemoveIPs of the same addresses leaves the list equal to the
fetched one` fails whenever the fetched list intersects the addresses. -/
theorem claim1_counterexample :
    (runGroup ⟨fun _ => Except.ok ["10.0.0.1"], fun _ => none⟩
      [getAddIPsToBackendPoolOperation "ns1/svc1" "lb1" "pool1" ["10.0.0.1"],
       getRemoveIPsFromBackendPoolOperation "ns1/svc1" "lb1" "pool1" ["10.0.0.1"]]).updates
    = [[]] ∧ ([] : List String) ≠ ["10.0.0.1"] := by
  constructor
  · rfl
  · simp

/-- C1 (amended): the merged address list handed to the (first) update call of
a group equals the fold of the group's Operations, in submission order, over
the fetched snapshot; and AddIPs of a set of addresses disjoint from the
fetched list followed by RemoveIPs of the same addresses leaves the list equal
to the fetched one. -/
theorem claim1_merge_fold :
    (∀ (api : PoolAPI) (ops : List Operation) (snap : List String),
      api.fetch 0 = Except.ok snap →
      (runGroup api ops).updates.head? = some (ops.foldl applyOperation snap)) ∧
    (∀ (svcName lb pool : String) (ips snap : List String),
      (∀ a ∈ ips, a ∉ snap) →
      mergePool snap
        [getAddIPsToBackendPoolOperation svcName lb pool ips,
         getRemoveIPsFromBackendPoolOperation svcName lb pool ips] = snap) := by
  constructor
  · intro api ops snap hf
    unfold runGroup
    rw [hf]
    cases hp : api.put 0 with
    | none => simp [hp, mergePool]
    | some pe =>
      by_cases hr : pe.retriable = true
      · cases hf1 : api.fetch 1 with
        | error e2 =>
          by_cases hnf : e2.notFound = true <;> simp [hp, hr, hf1, hnf, mergePool]
        | ok snap2 =>
          cases hp1 : api.put 1 <;> simp [hp, hr, hf1, hp1, mergePool]
      · simp [hp, hr, mergePool]
  · exact merge_add_remove_of_disjoint

/-- C1 witness: the amended theorem applied at a one-operation group over an
empty snapshot, and at disjoint add/remove addresses. -/
theorem claim1_merge_fold_witness :
    (runGroup ⟨fun _ => Except.ok [], fun _ => none⟩
        [getAddIPsToBackendPoolOperation "ns1/svc1" "lb1" "pool1" ["10.0.0.1"]]).updates.head?
      = some ([getAddIPsToBackendPoolOperation "ns1/svc1" "lb1" "pool1"
          ["10.0.0.1"]].foldl applyOperation []) ∧
    mergePool ["10.0.0.9"]
      [getAddIPsToBackendPoolOperation "ns1/svc1" "lb1" "pool1" ["10.0.0.1"],
       getRemoveIPsFromBackendPoolOperation "ns1/svc1" "lb1" "pool1" ["10.0.0.1"]]
      = ["10.0.0.9"] :=
  ⟨claim1_merge_fold.1 _ _ _ rfl,
   claim1_merge_fold.2 "ns1/svc1" "lb1" "pool1" ["10.0.0.1"] ["10.0.0.9"]
     (by decide)⟩

/-- C2: a retriable failure of the first fetch, or of the first apply, causes
exactly one re-fetch-and-reapply cycle (two fetches in total): when the
retried attempt succeeds the group resolves successfully, and when it fails
again the group resolves with that terminal error and no further call is
made. -/
theorem claim2_retriable_single_retry :
    ∀ (api : PoolAPI) (ops : List Operation),
    (∀ e : RetryError, api.fetch 0 = Except.error e → e.retriable = true →
      e.notFound = false →
      (∀ snap, api.fetch 1 = Except.ok snap → api.put 0 = none →
        runGroup api ops = ⟨2, [mergePool snap ops], OpResult.success⟩) ∧
      (∀ snap (pe : RetryError), api.fetch 1 = Except.ok snap →
        api.put 0 = some pe →
        runGroup api ops = ⟨2, [mergePool snap ops], OpResult.failure pe⟩) ∧
      (∀ e2 : RetryError, api.fetch 1 = Except.error e2 → e2.notFound = false →
        runGroup api ops = ⟨2, [], OpResult.failure e2⟩)) ∧
    (∀ snap (pe : RetryError), api.fetch 0 = Except.ok snap →
      api.put 0 = some pe → pe.retriable = true →
      (∀ snap2, api.fetch 1 = Except.ok snap2 → api.put 1 = none →
        runGroup api ops =
          ⟨2, [mergePool snap ops, mergePool snap2 ops], OpResult.success⟩) ∧
      (∀ snap2 (pe2 : RetryError), api.fetch 1 = Except.ok snap2 →
        api.put 1 = some pe2 →
        runGroup api ops =
          ⟨2, [mergePool snap ops, mergePool snap2 ops], OpResult.failure pe2⟩) ∧
      (∀ e2 : RetryError, api.fetch 1 = Except.error e2 → e2.notFound = false →
        runGroup api ops = ⟨2, [mergePool snap ops], OpResult.failure e2⟩)) := by
  intro api ops
  constructor
  · intro e hf hr hnf
    refine ⟨?_, ?_, ?_⟩
    · intro snap hf1 hp
      unfold runGroup
      rw [hf]
      simp [hnf, hr, hf1, hp]
    · intro snap pe hf1 hp
      unfold runGroup
      rw [hf]
      simp [hnf, hr, hf1, hp]
    · intro e2 hf1 hnf2
      unfold runGroup
      rw [hf]
      simp [hnf, hr, hf1, hnf2]
  · intro snap pe hf hp hr
    refine ⟨?_, ?_, ?_⟩
    · intro snap2 hf1 hp1
      unfold runGroup
      rw [hf]
      simp [hp, hr, hf1, hp1]
    · intro snap2 pe2 hf1 hp1
      unfold runGroup
      rw [hf]
      simp [hp, hr, hf1, hp1]
    · intro e2 hf1 hnf2
      unfold runGroup
      rw [hf]
      simp [hp, hr, hf1, hnf2]

/-- C2 witness: a retriable first fetch error followed by a successful retry
resolves the group successfully after exactly two fetches and one update. -/
theorem claim2_retriable_single_retry_witness :
    runGroup
        ⟨fun n => if n == 0 then Except.error ⟨true, false⟩ else Except.ok [],
         fun _ => none⟩
        [getAddIPsToBackendPoolOperation "ns1/svc1" "lb1" "pool1" ["10.0.0.1"]]
      = ⟨2, [["10.0.0.1"]], OpResult.success⟩ :=
  ((claim2_retriable_single_retry _ _).1 ⟨true, false⟩ rfl rfl rfl).1 [] rfl rfl

/-- C3: a not-found fetch error resolves every Operation of the group
successfully, with a single fetch, no update call and no retry. -/
theorem claim3_not_found_resolves_success :
    ∀ (api : PoolAPI) (ops : List Operation) (e : RetryError),
      api.fetch 0 = Except.error e → e.notFound = true →
      runGroup api ops = ⟨1, [], OpResult.success⟩ := by
  intro api ops e hf hnf
  unfold runGroup
  rw [hf]
  simp [hnf]

/-- C3 witness: a concrete not-found fetch error. -/
theorem claim3_not_found_resolves_success_witness :
    runGroup ⟨fun _ => Except.error ⟨false, true⟩, fun _ => none⟩
        [getAddIPsToBackendPoolOperation "ns1/svc1" "lb1" "pool1" ["10.0.0.1"]]
      = ⟨1, [], OpResult.success⟩ :=
  claim3_not_found_resolves_success _ _ ⟨false, true⟩ rfl rfl

/-- C4: a non-retriable failure of the fetch or of the apply is terminal at
once — a single fetch, no second fetch or update, and every Operation of the
group resolves with that error. -/
theorem claim4_non_retriable_no_retry :
    ∀ (api : PoolAPI) (ops : List Operation),
    (∀ e : RetryError, api.fetch 0 = Except.error e → e.notFound = false →
      e.retriable = false →
      runGroup api ops = ⟨1, [], OpResult.failure e⟩) ∧
    (∀ snap (pe : RetryError), api.fetch 0 = Except.ok snap →
      api.put 0 = some pe → pe.retriable = false →
      runGroup api ops = ⟨1, [mergePool snap ops], OpResult.failure pe⟩) := by
  intro api ops
  constructor
  · intro e hf hnf hr
    unfold runGroup
    rw [hf]
    simp [hnf, hr]
  · intro snap pe hf hp hr
    unfold runGroup
    rw [hf]
    simp [hp, hr]

/-- C4 witness: a concrete non-retriable fetch error resolves the group with
that error after one fetch and no update call. -/
theorem claim4_non_retriable_no_retry_witness :
    runGroup ⟨fun _ => Except.error ⟨false, false⟩, fun _ => none⟩
        [getAddIPsToBackendPoolOperation "ns1/svc1" "lb1" "pool1" ["10.0.0.1"]]
      = ⟨1, [], OpResult.failure ⟨false, false⟩⟩ :=
  (claim4_non_retriable_no_retry _ _).1 ⟨false, false⟩ rfl rfl rfl

/-- C5: withdrawing a service removes its Operations from the pending queue
before they can be drained — the batch swept by the next tick contains no
Operation of that service (so `drainTick`, the only producer of remote calls
and completion resolutions, never sees them) — while batches already drained
by earlier ticks are unchanged by a withdrawal, so their Operations run to
completion and resolve normally. -/
theorem claim5_withdraw :
    (∀ (es : List UpdaterEvent) (svc : String),
      (runUpdater (es ++ [UpdaterEvent.withdraw svc, UpdaterEvent.tick])).processed =
        (runUpdater es).processed ++
          [removeOperation (runUpdater es).pending svc] ∧
      ∀ op ∈ removeOperation (runUpdater es).pending svc,
        op.serviceName ≠ svc) ∧
    (∀ (es : List UpdaterEvent) (svc : String),
      (runUpdater (es ++ [UpdaterEvent.withdraw svc])).processed =
        (runUpdater es).processed) := by
  constructor
  · intro es svc
    constructor
    · simp [runUpdater, List.foldl_append, stepUpdater]
    · intro op hop
      unfold removeOperation at hop
      have h := (List.mem_filter.mp hop).2
      simpa using h
  · intro es svc
    simp [runUpdater, List.foldl_append, stepUpdater]

/-- C5 witness: one enqueued Operation withdrawn before the tick leaves the
tick's drained batch empty, and an Operation of a different service survives
the withdrawal filter with its own service name. -/
theorem claim5_withdraw_witness :
    (runUpdater
        [UpdaterEvent.enqueue
          (getAddIPsToBackendPoolOperation "ns1/svc1" "lb1" "pool1" ["10.0.0.1"]),
         UpdaterEvent.withdraw "ns1/svc1", UpdaterEvent.tick]).processed = [[]] ∧
    (getAddIPsToBackendPoolOperation "ns2/svc2" "lb1" "pool1"
      ["10.0.0.2"]).serviceName ≠ "ns1/svc1" :=
  ⟨(claim5_withdraw.1
      [UpdaterEvent.enqueue
        (getAddIPsToBackendPoolOperation "ns1/svc1" "lb1" "pool1" ["10.0.0.1"])]
      "ns1/svc1").1,
   (claim5_withdraw.1
      [UpdaterEvent.enqueue
        (getAddIPsToBackendPoolOperation "ns2/svc2" "lb1" "pool1" ["10.0.0.2"])]
      "ns1/svc1").2 _ (by decide)⟩

/-- Looking a key up in an association list built by pairing each key with a
value computed from it yields that computed value for any key of the list. -/
theorem lookup_map_apply {β : Type} (f : String × String → β) :
    ∀ (ks : List (String × String)) (k : String × String), k ∈ ks →
      List.lookup k (ks.map (fun a => (a, f a))) = some (f k) := by
  intro ks
  induction ks with
  | nil => intro k hk; cases hk
  | cons a ks ih =>
    intro k hk
    by_cases h : k = a
    · subst h; simp [List.lookup]
    · have hb : (k == a) = false := by simpa using h
      have hmem : k ∈ ks := by
        rcases List.mem_cons.mp hk with h1 | h1
        · exact absurd h1 h
        · exact h1
      simp [List.lookup, hb, ih k hmem]

/-- Looking a key up in such an association list only depends on the value
computed at that key. -/
theorem lookup_map_congr {β : Type} (f g : String × String → β)
    (k : String × String) (h : f k = g k) :
    ∀ ks : List (String × String),
      List.lookup k (ks.map (fun a => (a, f a))) =
        List.lookup k (ks.map (fun a => (a, g a))) := by
  intro ks
  induction ks with
  | nil => rfl
  | cons a ks ih =>
    by_cases hk : k = a
    · subst hk; simp [List.lookup, h]
    · have hb : (k == a) = false := by simpa using hk
      simp [List.lookup, hb, ih]

/-- C6: each (load balancer, pool) group of a drain cycle is processed with
its own fetch-and-apply sequence against its own remote endpoint, and its
trace depends only on that endpoint — changing the behaviour (including
failures) of every other group's endpoint leaves the group's fetches, update
calls and resolution unchanged. -/
theorem claim6_group_independence :
    ∀ (routing : String → Option ServiceInfo)
      (api api2 : String × String → PoolAPI) (batch : List Operation)
      (k : String × String),
      api k = api2 k →
      List.lookup k (drainTick routing api batch) =
        List.lookup k (drainTick routing api2 batch) ∧
      (k ∈ firstKeys (validOps routing batch) →
        List.lookup k (drainTick routing api batch) =
          some (runGroup (api k) (groupOps routing batch k))) := by
  intro routing api api2 batch k hk
  constructor
  · unfold drainTick
    exact lookup_map_congr _ _ k (by rw [hk]) _
  · intro hmem
    unfold drainTick
    exact lookup_map_apply _ _ k hmem

/-- C6 witness: with a failing endpoint for pool1 and a healthy endpoint for
pool2, pool2's trace equals its own group run and coincides with the trace it
gets when pool1's endpoint is healthy too. -/
theorem claim6_group_independence_witness :
    List.lookup ("lb1", "pool2")
        (drainTick (fun _ => some ⟨"lb1"⟩)
          (fun k =>
            if k == ("lb1", "pool1") then
              ⟨fun _ => Except.error ⟨false, false⟩, fun _ => none⟩
            else ⟨fun _ => Except.ok [], fun _ => none⟩)
          [getAddIPsToBackendPoolOperation "ns1/svc1" "lb1" "pool1" ["10.0.0.1"],
           getAddIPsToBackendPoolOperation "ns1/svc1" "lb1" "pool2" ["10.0.0.1"]]) =
      some (runGroup ⟨fun _ => Except.ok [], fun _ => none⟩
        (groupOps (fun _ => some ⟨"lb1"⟩)
          [getAddIPsToBackendPoolOperation "ns1/svc1" "lb1" "pool1" ["10.0.0.1"],
           getAddIPsToBackendPoolOperation "ns1/svc1" "lb1" "pool2" ["10.0.0.1"]]
          ("lb1", "pool2"))) :=
  (claim6_group_independence _ _ _ _ ("lb1", "pool2") rfl).2 (by decide)

/-- C7: a single AddIPs Operation of 10.0.0.1 and 10.0.0.2 for pool1 on lb1,
drained against a pool with no addresses, produces exactly one group with one
fetch and one update call whose desired list is exactly those two addresses,
and the group resolves successfully. -/
theorem claim7_end_to_end_add :
    drainTick (fun s => if s == "ns1/svc1" then some ⟨"lb1"⟩ else none)
      (fun _ => ⟨fun _ => Except.ok [], fun _ => none⟩)
      [getAddIPsToBackendPoolOperation "ns1/svc1" "lb1" "pool1"
        ["10.0.0.1", "10.0.0.2"]] =
    [(("lb1", "pool1"), ⟨1, [["10.0.0.1", "10.0.0.2"]], OpResult.success⟩)] := by
  rfl

/-- C8: a membership event without a service identity or for a service absent
from the routing table produces no Operations; an enqueued Operation whose
service is not locally routed, or is routed to a different load balancer, is
dropped from the drained batch before grouping; and a batch with no valid
Operation triggers no group at all, hence no remote call. -/
theorem claim8_gating :
    (∀ (routing : String → Option ServiceInfo) (nodeIPs : String → List String)
      (ev : MembershipEvent), ev.serviceId = none →
      diffEngineOps routing nodeIPs ev = []) ∧
    (∀ (routing : String → Option ServiceInfo) (nodeIPs : String → List String)
      (ev : MembershipEvent) (svc : String), ev.serviceId = some svc →
      routing svc = none → diffEngineOps routing nodeIPs ev = []) ∧
    (∀ (routing : String → Option ServiceInfo) (batch : List Operation)
      (op : Operation), op ∈ batch →
      (routing op.serviceName = none ∨
        ∃ info, routing op.serviceName = some info ∧ info.lbName ≠ op.lbName) →
      op ∉ validOps routing batch) ∧
    (∀ (routing : String → Option ServiceInfo)
      (api : String × String → PoolAPI) (batch : List Operation),
      validOps routing batch = [] → drainTick routing api batch = []) := by
  refine ⟨?_, ?_, ?_, ?_⟩
  · intro routing nodeIPs ev h
    unfold diffEngineOps
    rw [h]
  · intro routing nodeIPs ev svc hev hrt
    unfold diffEngineOps
    rw [hev]
    simp [hrt]
  · intro routing batch op _ hbad hval
    have hloc := (List.mem_filter.mp hval).2
    unfold isLocallyRoutedOn at hloc
    rcases hbad with h | ⟨info, h, hne⟩
    · rw [h] at hloc
      exact Bool.false_ne_true hloc
    · rw [h] at hloc
      exact hne (by simpa using hloc)
  · intro routing api batch h
    unfold drainTick
    rw [h]
    rfl

/-- C8 witness: an Operation whose service has no routing entry is not among
the valid Operations of its batch. -/
theorem claim8_gating_witness :
    getAddIPsToBackendPoolOperation "ns1/svc1" "lb1" "pool1" ["10.0.0.1"] ∉
      validOps (fun _ => none)
        [getAddIPsToBackendPoolOperation "ns1/svc1" "lb1" "pool1" ["10.0.0.1"]] :=
  claim8_gating.2.2.1 _ _ _ (List.mem_singleton.mpr rfl) (Or.inl rfl)

/-- C9: for a UDP or SCTP service port, buildHealthProbeRulesForPort returns
no probe and no error, whatever the service's annotations. -/
theorem claim9_udp_sctp_no_probe :
    ∀ (useStandardLB : Bool) (svc : Service) (port : ServicePort)
      (lbrule : String),
      port.protocol = K8sProtocol.udp ∨ port.protocol = K8sProtocol.sctp →
      buildHealthProbeRulesForPort useStandardLB svc port lbrule =
        Except.ok none := by
  intro u svc port lbrule h
  unfold buildHealthProbeRulesForPort
  rcases h with h | h <;> rw [h] <;> rfl

/-- C9 witness: a concrete UDP port with a protocol annotation present still
yields no probe and no error. -/
theorem claim9_udp_sctp_no_probe_witness :
    buildHealthProbeRulesForPort true
        ⟨[(serviceAnnLBHealthProbeProtocol, "Http")], []⟩
        ⟨"p", 80, 30080, K8sProtocol.udp, none⟩ "rule" = Except.ok none :=
  claim9_udp_sctp_no_probe true ⟨[(serviceAnnLBHealthProbeProtocol, "Http")], []⟩
    ⟨"p", 80, 30080, K8sProtocol.udp, none⟩ "rule" (Or.inl rfl)

/-- C10 counterexample: with a per-port probe interval of 1073741824 and 2
probes the resolved values multiply (mathematically) to 2147483648, which is
at least 120, yet getHealthProbeConfigProbeIntervalAndNumOfProbe returns them
without an error, because the Go int32 product overflows to -2147483648 and
passes the `less than 120` check. -/
theorem claim10_counterexample :
    getHealthProbeConfigProbeIntervalAndNumOfProbe claim10Svc 80 =
        Except.ok (1073741824, 2) ∧
      (120 : Int) ≤ 1073741824 * 2 := by
  constructor
  · rfl
  · decide

/-- C10 (amended): whenever getHealthProbeConfigProbeIntervalAndNumOfProbe or
buildHealthProbeRulesForPort returns without error (with a probe in the latter
case), the product of the resolved interval and number of probes computed in
32-bit two's-complement arithmetic, as the Go int32 multiplication computes
it, is strictly less than 120; and whenever that 32-bit product reaches 120
the function returns an error. -/
theorem claim10_wrapped_product_bound :
    (∀ (svc : Service) (port i n : Int),
      getHealthProbeConfigProbeIntervalAndNumOfProbe svc port =
        Except.ok (i, n) →
      wrap32 (i * n) < 120) ∧
    (∀ (useStandardLB : Bool) (svc : Service) (sp : ServicePort)
      (lbrule : String) (probe : Probe),
      buildHealthProbeRulesForPort useStandardLB svc sp lbrule =
        Except.ok (some probe) →
      wrap32 (probe.properties.intervalInSeconds *
        probe.properties.probeThreshold) < 120) ∧
    (∀ (svc : Service) (port i n : Int),
      getHealthProbeConfigNumOfProbe svc port = Except.ok n →
      getHealthProbeConfigProbeInterval svc port = Except.ok i →
      120 ≤ wrap32 (i * n) →
      getHealthProbeConfigProbeIntervalAndNumOfProbe svc port =
        Except.error "total probe should be less than 120, please adjust interval and number of probe accordingly") := by
  refine ⟨?_, ?_, ?_⟩
  · intro svc port i n h
    unfold getHealthProbeConfigProbeIntervalAndNumOfProbe at h
    cases hn : getHealthProbeConfigNumOfProbe svc port with
    | error e => simp only [hn] at h; exact Except.noConfusion h
    | ok n0 =>
      cases hi : getHealthProbeConfigProbeInterval svc port with
      | error e => simp only [hn, hi] at h; exact Except.noConfusion h
      | ok i0 =>
        simp only [hn, hi] at h
        by_cases hg : 120 ≤ wrap32 (i0 * n0)
        · rw [if_pos hg] at h
          exact Except.noConfusion h
        · rw [if_neg hg] at h
          injection h with h1
          injection h1 with ha hb
          subst ha
          subst hb
          exact not_le.mp hg
  · intro u svc sp lbrule probe h
    unfold buildHealthProbeRulesForPort at h
    by_cases hudp :
        (sp.protocol == K8sProtocol.udp || sp.protocol == K8sProtocol.sctp) = true
    · rw [if_pos hudp] at h
      injection h with h1
      exact Option.noConfusion h1
    · rw [if_neg hudp] at h
      cases hsel : selectProbeProtocol u svc sp with
      | error e => simp only [hsel] at h; exact Except.noConfusion h
      | ok pr =>
        obtain ⟨proto, portOpt⟩ := pr
        cases hpp : resolveProbePort svc sp portOpt with
        | error e => simp only [hsel, hpp] at h; exact Except.noConfusion h
        | ok pv =>
          cases hrq : resolveRequestPath svc sp.port proto with
          | error e => simp only [hsel, hpp, hrq] at h; exact Except.noConfusion h
          | ok rp =>
            cases hn : getHealthProbeConfigNumOfProbe svc sp.port with
            | error e => simp only [hsel, hpp, hrq, hn] at h; exact Except.noConfusion h
            | ok n0 =>
              cases hi : getHealthProbeConfigProbeInterval svc sp.port with
              | error e => simp only [hsel, hpp, hrq, hn, hi] at h; exact Except.noConfusion h
              | ok i0 =>
                simp only [hsel, hpp, hrq, hn, hi] at h
                by_cases hg : 120 ≤ wrap32 (i0 * n0)
                · rw [if_pos hg] at h
                  exact Except.noConfusion h
                · rw [if_neg hg] at h
                  injection h with h1
                  injection h1 with h2
                  rw [← h2]
                  exact not_le.mp hg
  · intro svc port i n hn hi hw
    unfold getHealthProbeConfigProbeIntervalAndNumOfProbe
    rw [hn]
    simp only [hi]
    rw [if_pos hw]

/-- C10 witness: the amended bound applied at a service with no annotations,
whose resolved values are the defaults 5 and 2. -/
theorem claim10_wrapped_product_bound_witness :
    wrap32 ((5 : Int) * 2) < 120 ∧
    getHealthProbeConfigProbeIntervalAndNumOfProbe ⟨[], []⟩ 80 =
      Except.ok (5, 2) :=
  ⟨claim10_wrapped_product_bound.1 ⟨[], []⟩ 80 5 2 rfl, rfl⟩
